import Mathlib

/-!
Shallow embedding of `src/src/lib.rs` of the tailscale-mcp Zed extension.

The repository's entire logic is the method
`TailscaleNetworkManagementExtension::context_server_command`, which matches
the context-server identifier string against the literal `"tailscale-mcp"`:
on a match it returns `Ok` with a fixed launch command, otherwise it returns
`Err(format!("Unknown server: {}", id.0))`.

The Rust method takes `&mut self`; we embed it as explicit state passing:
the function consumes the extension value and returns the (possibly updated)
extension value alongside the `Result`.  The `zed::Project` argument is opaque
to the extension, so it is embedded as a value of an arbitrary type `P`; a
concrete `Project` type is provided for evaluating the function on concrete
inputs.
-/

/-- Embedding of `zed::Command { command, args, env }`.  The environment map
is embedded as an association list of variable/value pairs; `Default::default()`
for the map is the empty list. -/
structure Command where
  command : String
  args : List String
  env : List (String × String)
deriving DecidableEq, Repr

/-- Embedding of `zed::ContextServerId`, a tuple struct whose field `0`
is the identifier string. -/
structure ContextServerId where
  val : String
deriving DecidableEq, Repr

/-- Embedding of the field-less `struct TailscaleNetworkManagementExtension;`. -/
structure TailscaleNetworkManagementExtension where
deriving DecidableEq, Repr

/-- A concrete stand-in for the opaque `zed::Project` handle, used to
evaluate `context_server_command` at concrete inputs.  The extension never
inspects it. -/
structure Project where
  handle : Nat
deriving DecidableEq, Repr

/-- Embedding of `TailscaleNetworkManagementExtension::context_server_command`
from `src/src/lib.rs`.

```rust
match id.0.as_str() {
    "tailscale-mcp" => Ok(zed::Command {
        command: "uv".to_string(),
        args: vec!["run".to_string(), "tailscale-mcp.main:main".to_string()],
        env: Default::default(),
    }),
    _ => Err(format!("Unknown server: {}", id.0)),
}
```

The Rust `match` has one literal arm and a wildcard arm, i.e. an equality
test on the string; `Result<zed::Command, String>` is embedded as
`Except String Command`.  The `&mut self` receiver becomes explicit state
passing: the extension value is returned unchanged alongside the result. -/
def context_server_command {P : Type} (ext : TailscaleNetworkManagementExtension)
    (id : ContextServerId) (_project : P) :
    TailscaleNetworkManagementExtension × Except String Command :=
  (ext,
    if id.val = "tailscale-mcp" then
      Except.ok
        { command := "uv"
          args := ["run", "tailscale-mcp.main:main"]
          env := [] }
    else
      Except.error ("Unknown server: " ++ id.val))

/-- The fixed launch spec returned for the known identifier. -/
def tailscaleLaunchSpec : Command :=
  { command := "uv"
    args := ["run", "tailscale-mcp.main:main"]
    env := [] }

/-- C1: for the input id "tailscale-mcp" and any project handle (of any type),
`context_server_command` returns success with exactly the launch spec
{command = "uv", arguments = ["run", "tailscale-mcp.main:main"],
environment = empty}. -/
theorem C1_known_id_launch_spec {P : Type} (ext : TailscaleNetworkManagementExtension)
    (project : P) :
    (context_server_command ext ⟨"tailscale-mcp"⟩ project).2 =
      Except.ok tailscaleLaunchSpec := by
  simp [context_server_command, tailscaleLaunchSpec]

/-- Witness for C1 at the concrete extension value and a concrete project. -/
theorem C1_known_id_launch_spec_witness :
    (context_server_command TailscaleNetworkManagementExtension.mk
        ⟨"tailscale-mcp"⟩ (Project.mk 0)).2 = Except.ok tailscaleLaunchSpec :=
  C1_known_id_launch_spec TailscaleNetworkManagementExtension.mk (Project.mk 0)

/-- C2: for every id string and every project handle, the call succeeds with
some launch spec if and only if the id equals the literal "tailscale-mcp";
for every other id it returns an error. -/
theorem C2_success_iff_known_id {P : Type} (ext : TailscaleNetworkManagementExtension)
    (id : ContextServerId) (project : P) :
    ((∃ c, (context_server_command ext id project).2 = Except.ok c) ↔
        id.val = "tailscale-mcp") ∧
    ((∃ e, (context_server_command ext id project).2 = Except.error e) ↔
        id.val ≠ "tailscale-mcp") := by
  by_cases h : id.val = "tailscale-mcp" <;>
    simp [context_server_command, h, tailscaleLaunchSpec]

/-- Witness for C2 at the concrete ids "tailscale-mcp" and within the
equivalence, evaluated at a concrete extension and project. -/
theorem C2_success_iff_known_id_witness :
    (∃ c, (context_server_command TailscaleNetworkManagementExtension.mk
        ⟨"tailscale-mcp"⟩ (Project.mk 0)).2 = Except.ok c) :=
  (C2_success_iff_known_id TailscaleNetworkManagementExtension.mk
      ⟨"tailscale-mcp"⟩ (Project.mk 0)).1.mpr rfl

/-- C3: for every input id not equal to "tailscale-mcp", the error returned
by `context_server_command` has a message containing the input id verbatim
as a substring (witnessed by a prefix and a suffix around it). -/
theorem C3_error_message_contains_id {P : Type}
    (ext : TailscaleNetworkManagementExtension) (id : ContextServerId) (project : P)
    (h : id.val ≠ "tailscale-mcp") :
    ∃ e, (context_server_command ext id project).2 = Except.error e ∧
      ∃ pre post, e = pre ++ id.val ++ post := by
  refine ⟨"Unknown server: " ++ id.val, ?_, "Unknown server: ", "", ?_⟩
  · simp [context_server_command, h]
  · rw [String.append_assoc, String.append_empty]

/-- Witness for C3 at the concrete id "foo". -/
theorem C3_error_message_contains_id_witness :
    ∃ e, (context_server_command TailscaleNetworkManagementExtension.mk
        ⟨"foo"⟩ (Project.mk 0)).2 = Except.error e ∧
      ∃ pre post, e = pre ++ "foo" ++ post :=
  C3_error_message_contains_id TailscaleNetworkManagementExtension.mk
    ⟨"foo"⟩ (Project.mk 0) (by decide)

/-- C4: the function is total over all id strings including the empty
string: calling it with "" returns an UnknownServer error (the wildcard
branch handles it) and leaves the extension state unchanged. -/
theorem C4_empty_id_handled {P : Type} (ext : TailscaleNetworkManagementExtension)
    (project : P) :
    context_server_command ext ⟨""⟩ project =
      (ext, Except.error "Unknown server: ") := rfl

/-- C5: `context_server_command` is deterministic and idempotent: two calls
with the same inputs give equal results, and a repeated call in sequence
(threading the extension state returned by the first call) gives the same
result as the first call. -/
theorem C5_deterministic_idempotent {P : Type}
    (ext : TailscaleNetworkManagementExtension) (id : ContextServerId) (project : P) :
    context_server_command ext id project = context_server_command ext id project ∧
    context_server_command (context_server_command ext id project).1 id project =
      context_server_command ext id project :=
  ⟨rfl, rfl⟩

/-- C6: the project argument never affects the outcome: for any two project
handles, of possibly different types, the results are equal. -/
theorem C6_project_irrelevant {P Q : Type} (ext : TailscaleNetworkManagementExtension)
    (id : ContextServerId) (p1 : P) (p2 : Q) :
    context_server_command ext id p1 = context_server_command ext id p2 := rfl

/-- C7: `context_server_command` keeps no state between calls: the extension
state after the call equals the state before the call, for every input
(both on the success branch and on the error branch). -/
theorem C7_state_unchanged {P : Type} (ext : TailscaleNetworkManagementExtension)
    (id : ContextServerId) (project : P) :
    (context_server_command ext id project).1 = ext := rfl

/-- C8: for every unrecognized id, the error message is exactly the string
"Unknown server: " followed by the id. -/
theorem C8_error_message_exact {P : Type} (ext : TailscaleNetworkManagementExtension)
    (id : ContextServerId) (project : P) (h : id.val ≠ "tailscale-mcp") :
    (context_server_command ext id project).2 =
      Except.error ("Unknown server: " ++ id.val) := by
  simp [context_server_command, h]

/-- Witness for C8 at the concrete id "foo". -/
theorem C8_error_message_exact_witness :
    (context_server_command TailscaleNetworkManagementExtension.mk
        ⟨"foo"⟩ (Project.mk 0)).2 =
      Except.error ("Unknown server: " ++ "foo") :=
  C8_error_message_exact TailscaleNetworkManagementExtension.mk
    ⟨"foo"⟩ (Project.mk 0) (by decide)

/-- C9: the identifier match is exact byte-for-byte string equality with no
normalization: every id unequal to "tailscale-mcp" fails with an error, and
in particular the case variant "Tailscale-MCP", the whitespace variants
" tailscale-mcp" and "tailscale-mcp ", and the near-miss "tailscale-mcp2"
all fail. -/
theorem C9_exact_match_no_normalization {P : Type}
    (ext : TailscaleNetworkManagementExtension) (project : P) :
    (∀ id : ContextServerId, id.val ≠ "tailscale-mcp" →
      ∃ e, (context_server_command ext id project).2 = Except.error e) ∧
    (∃ e, (context_server_command ext ⟨"Tailscale-MCP"⟩ project).2 = Except.error e) ∧
    (∃ e, (context_server_command ext ⟨" tailscale-mcp"⟩ project).2 = Except.error e) ∧
    (∃ e, (context_server_command ext ⟨"tailscale-mcp "⟩ project).2 = Except.error e) ∧
    (∃ e, (context_server_command ext ⟨"tailscale-mcp2"⟩ project).2 = Except.error e) := by
  refine ⟨fun id h => ⟨"Unknown server: " ++ id.val, ?_⟩, ?_, ?_, ?_, ?_⟩ <;>
    simp [context_server_command, *]

/-- Witness for C9 at a concrete extension and project, applied to the
concrete near-miss id "Tailscale-MCP". -/
theorem C9_exact_match_no_normalization_witness :
    ∃ e, (context_server_command TailscaleNetworkManagementExtension.mk
        ⟨"Tailscale-MCP"⟩ (Project.mk 0)).2 = Except.error e :=
  (C9_exact_match_no_normalization TailscaleNetworkManagementExtension.mk
      (Project.mk 0)).2.1
